import Mathlib

/-!
Verification of the contact-management web API (FastAPI + SQLAlchemy sources
under `src/`).  The Python data model and the repository / route functions are
shallowly embedded as executable Lean definitions over an explicit database
state; dates are day ordinals (`Nat`), raised exceptions are `Except` errors.
-/

set_option maxHeartbeats 1000000

namespace ContactsApi

/-- Runtime failures of the Python code: `HTTPException(status, detail)`,
`AttributeError`, `KeyError`, `TypeError`. -/
inductive PyError where
  | http (status : Nat) (detail : String)
  | attributeError (msg : String)
  | keyError (key : String)
  | typeError (msg : String)
deriving DecidableEq, Repr

instance exceptDecEq {ε α : Type} [DecidableEq ε] [DecidableEq α] :
    DecidableEq (Except ε α) := fun a b =>
  match a, b with
  | .error x, .error y =>
      if h : x = y then isTrue (by rw [h])
      else isFalse (fun he => by cases he; exact h rfl)
  | .error _, .ok _ => isFalse (fun he => by cases he)
  | .ok _, .error _ => isFalse (fun he => by cases he)
  | .ok x, .ok y =>
      if h : x = y then isTrue (by rw [h])
      else isFalse (fun he => by cases he; exact h rfl)

/-! ## Data model (src/src/auth/models.py, src/src/contacts/models.py) -/

/-- Row of table `roles`: id, unique name. -/
structure Role where
  id : Nat
  name : String
deriving DecidableEq, Repr

/-- Row of table `users`.  `role_id` is nullable; `is_active` defaults to
True in the column definition but `create_user` passes False explicitly. -/
structure User where
  id : Nat
  username : String
  email : String
  hashed_password : String
  is_active : Bool
  role_id : Option Nat
deriving DecidableEq, Repr

/-- Row of table `contacts`.  `birthday` is a `Date`, embedded as a day
ordinal; `owner_id` is a nullable foreign key to `users`. -/
structure Contact where
  id : Nat
  firstname : String
  lastname : String
  birthday : Nat
  description : Option String
  owner_id : Option Nat
deriving DecidableEq, Repr

/-- Row of table `emails`: value is globally unique. -/
structure Email where
  id : Nat
  email : String
  contact_id : Nat
deriving DecidableEq, Repr

/-- Row of table `phones`: value is not unique. -/
structure Phone where
  id : Nat
  phone : String
  contact_id : Nat
deriving DecidableEq, Repr

/-- Committed database state: the five relational tables. -/
structure DB where
  users : List User
  roles : List Role
  contacts : List Contact
  emails : List Email
  phones : List Phone
deriving DecidableEq, Repr

/-- The role the user's `role` relationship resolves to (None when
`role_id` is null). -/
def userRole (db : DB) (u : User) : Option Role :=
  u.role_id.bind (fun rid => db.roles.find? (fun r => r.id == rid))

/-! ## Token service (src/src/auth/auth.py)

`jose.jwt.encode`/`jwt.decode` under a fixed secret are mutually inverse, so
a signed token is embedded as its payload; `jwt_decode` re-checks only what
the library checks on a well-signed token, namely the `exp` claim. -/

def ACCESS_TOKEN_EXPIRE_MINUTES : Nat := 300

def REFRESH_TOKEN_EXPIRE_DAYS : Nat := 7

/-- Payload of a signed token: optional `sub` claim, `scope` tag, `exp`
timestamp (seconds). -/
structure TokenPayload where
  sub : Option String
  scope : String
  exp : Nat
deriving DecidableEq, Repr

/-- `TokenData(username=...)` from schema_auth.py. -/
structure TokenData where
  username : Option String
deriving DecidableEq, Repr

/-- `Auth.create_access_token` with the default expiry: copies the data,
adds `exp = now + 300 minutes` and `scope = "access_token"`. -/
def create_access_token (sub : Option String) (now : Nat) : TokenPayload :=
  { sub := sub, scope := "access_token",
    exp := now + ACCESS_TOKEN_EXPIRE_MINUTES * 60 }

/-- `Auth.create_refresh_token` with the default expiry: adds
`exp = now + 7 days` and `scope = "refresh_token"`. -/
def create_refresh_token (sub : Option String) (now : Nat) : TokenPayload :=
  { sub := sub, scope := "refresh_token",
    exp := now + REFRESH_TOKEN_EXPIRE_DAYS * 24 * 60 * 60 }

/-- `jose.jwt.decode` on a token signed with the configured secret: yields
the payload while it is unexpired, `none` (a `JWTError`) afterwards. -/
def jwt_decode (tok : TokenPayload) (now : Nat) : Option TokenPayload :=
  if now < tok.exp then some tok else none

/-- `Auth.decode_refresh_token`: decodes, then requires
`payload["scope"] == "refresh_token"`; a scope mismatch raises
`HTTPException(401, "Invalid scope for token")`, a `JWTError` raises
`HTTPException(401, "Could not validate credentials")`; `payload["sub"]`
raises `KeyError` when the claim is absent. -/
def decode_refresh_token (tok : TokenPayload) (now : Nat) :
    Except PyError TokenData :=
  match jwt_decode tok now with
  | some payload =>
      if payload.scope == "refresh_token" then
        match payload.sub with
        | some email => .ok { username := some email }
        | none => .error (.keyError "sub")
      else .error (.http 401 "Invalid scope for token")
  | none => .error (.http 401 "Could not validate credentials")

/-- Token-checking portion of `Auth.get_current_user`: decodes, requires
`payload["scope"] == "access_token"`, then `payload.get("sub")`; any failure
raises the 401 credentials exception.  Returns the subject email. -/
def get_current_user_token_check (tok : TokenPayload) (now : Nat) :
    Except PyError String :=
  match jwt_decode tok now with
  | some payload =>
      if payload.scope == "access_token" then
        match payload.sub with
        | some email => .ok email
        | none => .error (.http 401 "Could not validate credentials")
      else .error (.http 401 "Could not validate credentials")
  | none => .error (.http 401 "Could not validate credentials")

/-! ## Contact repository (src/src/contacts/repo_contacts.py)

Each repository method wraps its body in `try/except Exception`; the handler
`handle_exception` rolls the transaction back and raises
`HTTPException(500, "Internal Server Error")`.  In particular an
`HTTPException(404)` raised inside the `try` block is itself caught and
replaced by that 500. -/

/-- Fresh primary key for a contact row (sequence-assigned at commit). -/
def nextContactId (db : DB) : Nat :=
  (db.contacts.map (fun c => c.id)).foldr max 0 + 1

/-- Fresh primary key for an email row. -/
def nextEmailId (db : DB) : Nat :=
  (db.emails.map (fun e => e.id)).foldr max 0 + 1

/-- Fresh primary key for a phone row. -/
def nextPhoneId (db : DB) : Nat :=
  (db.phones.map (fun p => p.id)).foldr max 0 + 1

/-- Email rows built for the supplied values, keyed to one contact. -/
def buildEmails (startId cid : Nat) : List String → List Email
  | [] => []
  | v :: vs =>
      { id := startId, email := v, contact_id := cid } ::
        buildEmails (startId + 1) cid vs

/-- Phone rows built for the supplied values, keyed to one contact. -/
def buildPhones (startId cid : Nat) : List String → List Phone
  | [] => []
  | v :: vs =>
      { id := startId, phone := v, contact_id := cid } ::
        buildPhones (startId + 1) cid vs

/-- The unique constraint on `emails.email`: a commit of this table state
succeeds iff no value repeats. -/
def emailsUnique (l : List Email) : Bool :=
  decide ((l.map (fun e => e.email)).Nodup)

/-- Iterating `body.emails`/`body.phones` in Python: `None` and `[]` both
contribute no rows. -/
def optVals : Option (List String) → List String
  | none => []
  | some l => l

/-- `ContactCreate` / `ContactSchema` (schema_contacts.py): scalar fields
plus optional email and phone value lists. -/
structure ContactCreate where
  firstname : String
  lastname : String
  birthday : Nat
  description : Option String
  emails : Option (List String)
  phones : Option (List String)
deriving DecidableEq, Repr

/-- `ContactRepository.get_all_contacts(limit, offset)`: a page of the
contacts table, with no owner filter of any kind. -/
def get_all_contacts (db : DB) (limit offset : Nat) : List Contact :=
  (db.contacts.drop offset).take limit

/-- `ContactRepository.get_birthdays(limit, offset, owner_id)`: contacts of
the owner whose stored birthday date lies between today and today + 7 days
inclusive (SQL `BETWEEN`), then offset/limit. -/
def get_birthdays (db : DB) (today limit offset owner_id : Nat) :
    List Contact :=
  ((db.contacts.filter (fun c =>
      c.owner_id == some owner_id &&
      decide (today ≤ c.birthday) &&
      decide (c.birthday ≤ today + 7))).drop offset).take limit

/-- The contact row `create_contact` builds and commits first. -/
def newContact (db : DB) (body : ContactCreate) (owner_id : Nat) : Contact :=
  { id := nextContactId db, firstname := body.firstname,
    lastname := body.lastname, birthday := body.birthday,
    description := body.description, owner_id := some owner_id }

/-- Second transaction of `create_contact`: adds the email and phone rows of
the already-committed contact and commits again.  A unique-constraint
violation on an email value makes this second commit fail:
`handle_exception` rolls back the still-pending rows and raises the 500,
but the contact row committed by the first transaction stays. -/
def create_contact_step2 (db1 : DB) (contact : Contact)
    (body : ContactCreate) : DB × Except PyError Contact :=
  let newEmails := buildEmails (nextEmailId db1) contact.id (optVals body.emails)
  let newPhones := buildPhones (nextPhoneId db1) contact.id (optVals body.phones)
  let emails2 := db1.emails ++ newEmails
  if emailsUnique emails2 then
    ({ db1 with emails := emails2, phones := db1.phones ++ newPhones },
      .ok contact)
  else
    (db1, .error (.http 500 "Internal Server Error"))

/-- `ContactRepository.create_contact(body, owner_id)` proper: builds the
contact row and commits it alone, then runs the second transaction. -/
def create_contact (db : DB) (body : ContactCreate) (owner_id : Nat) :
    DB × Except PyError Contact :=
  let contact := newContact db body owner_id
  create_contact_step2 { db with contacts := db.contacts ++ [contact] }
    contact body

/-- `ContactUpdateSchema`: the create fields plus the id. -/
structure ContactUpdateSchema extends ContactCreate where
  id : Nat
deriving DecidableEq, Repr

/-- Body of `update_contact` once the contact has been selected: replaces
the scalar fields, and for each of `emails`/`phones` supplied (not None,
empty list included) deletes every existing associated row of the contact
and inserts the replacement rows, then commits once; a unique-violation on
an email value makes `handle_exception` roll the whole update back. -/
def update_found (db : DB) (contact_id : Nat) (body : ContactUpdateSchema)
    (c : Contact) : DB × Except PyError Contact :=
      let c2 := { c with
        firstname := body.firstname,
        lastname := body.lastname,
        birthday := body.birthday,
        description := body.description }
      let contacts2 := db.contacts.map (fun x =>
        if x.id == contact_id then c2 else x)
      let emails2 := match body.emails with
        | none => db.emails
        | some l =>
            db.emails.filter (fun e => !(e.contact_id == contact_id)) ++
              buildEmails (nextEmailId db) contact_id l
      let phones2 := match body.phones with
        | none => db.phones
        | some l =>
            db.phones.filter (fun p => !(p.contact_id == contact_id)) ++
              buildPhones (nextPhoneId db) contact_id l
      if emailsUnique emails2 then
        ({ db with
            contacts := contacts2,
            emails := emails2,
            phones := phones2 }, .ok c2)
      else
        (db, .error (.http 500 "Internal Server Error"))

/-- `ContactRepository.update_contact(contact_id, body, owner_id)`: selects
the contact by id and owner; a miss raises `HTTPException(404)`, which the
blanket `except` turns into the 500. -/
def update_contact (db : DB) (contact_id : Nat) (body : ContactUpdateSchema)
    (owner_id : Nat) : DB × Except PyError Contact :=
  match db.contacts.find? (fun c =>
      c.id == contact_id && c.owner_id == some owner_id) with
  | none => (db, .error (.http 500 "Internal Server Error"))
  | some c => update_found db contact_id body c

/-! ## User directory (src/src/auth/repo_auth.py, password_utils.py) -/

/-- `get_password_hash`: one-way bcrypt hash, embedded as an injective
tagging function (only equality with the stored value matters here). -/
def get_password_hash (password : String) : String :=
  "bcrypt$" ++ password

/-- `UserCreate` (schema_auth.py). -/
structure UserCreate where
  username : String
  email : String
  password : String
deriving DecidableEq, Repr

/-- `UserRepository.get_user(username)`. -/
def get_user (db : DB) (username : String) : Option User :=
  db.users.find? (fun u => u.username == username)

/-- `UserRepository.get_user_by_email(email)`. -/
def get_user_by_email (db : DB) (email : String) : Option User :=
  db.users.find? (fun u => u.email == email)

/-- The record `create_user` builds: hashed password, `is_active=False`,
and no role (`role_id` stays null). -/
def createdUser (db : DB) (body : UserCreate) : User :=
  { id := (db.users.map (fun x => x.id)).foldr max 0 + 1,
    username := body.username, email := body.email,
    hashed_password := get_password_hash body.password,
    is_active := false, role_id := none }

/-- `UserRepository.create_user(body)`: inserts `createdUser` and commits.
A commit failing on the users-table unique constraints is caught by
`handle_exception`, which rolls back and raises the 500. -/
def create_user (db : DB) (body : UserCreate) : DB × Except PyError User :=
  if db.users.any (fun x =>
      x.username == body.username || x.email == body.email) then
    (db, .error (.http 500 "Internal Server Error"))
  else
    ({ db with users := db.users ++ [createdUser db body] },
      .ok (createdUser db body))

/-! ## Auth routes (src/src/auth/route_auth.py) -/

/-- `register` (POST /auth/register): the whole body sits in a
`try/except Exception` block, so the `HTTPException(400, "Username already
registered")` raised for a duplicate username is itself caught and replaced
by `HTTPException(500, "Internal server error")`. -/
def register (db : DB) (body : UserCreate) : DB × Except PyError User :=
  let attempt : DB × Except PyError User :=
    match get_user db body.username with
    | some _ => (db, .error (.http 400 "Username already registered"))
    | none => create_user db body
  match attempt with
  | (db2, .error _) => (db2, .error (.http 500 "Internal server error"))
  | okRes => okRes

/-- `request_email` (POST /auth/request_email): looks the user up by email
and evaluates `user.is_active` before any None check, so a missing user
makes the handler raise an unhandled `AttributeError`; otherwise it answers
one of the two documented messages. -/
def request_email (db : DB) (email : String) : Except PyError String :=
  match get_user_by_email db email with
  | none => .error (.attributeError "NoneType object has no attribute is_active")
  | some u =>
      if u.is_active then .ok "Your email is already confirmed"
      else .ok "Check your email for confirmation."

/-! ## Role guard (src/src/admin/roles.py) -/

/-- `RoleChecker.__call__` after the user is resolved: the logging f-string
evaluates `user.role.name` first, so a user whose `role` is None raises
`AttributeError` before any comparison; otherwise membership of the role
name in the allow-list decides between the user and a 403. -/
def role_checker (db : DB) (allowed : List String) (u : User) :
    Except PyError User :=
  match userRole db u with
  | none => .error (.attributeError "NoneType object has no attribute name")
  | some r =>
      if allowed.contains r.name then .ok u
      else .error (.http 403 "You do not have permission to perform this action")

/-! ## Contact list route (src/src/contacts/route_contacts.py)

The handler for GET /contacts/ runs `repo.get_contacts(limit, offset,
current_user.id)`. -/

/-- The method names bound on `ContactRepository` in repo_contacts.py. -/
def contactRepositoryMethods : List String :=
  ["__init__", "handle_exception", "get_all_contacts", "get_contact",
   "create_contact", "update_contact", "delete_contact", "get_birthdays",
   "get_all_birthdays", "search_contacts", "search_all_contacts"]

/-- `get_contacts` (GET /contacts/): the attribute lookup
`repo.get_contacts` consults the class's method table; the name is not
bound there, so the lookup raises `AttributeError` (no method body exists
for the other branch to run). -/
def route_get_contacts (_db : DB) (_limit _offset _current_user_id : Nat) :
    Except PyError (List Contact) :=
  if contactRepositoryMethods.contains "get_contacts" then
    .error (.http 500 "unreachable: repo_contacts.py binds no such method")
  else
    .error (.attributeError
      "ContactRepository object has no attribute get_contacts")

/-! ## Search and global birthdays (repo_contacts.py) -/

/-- Does the pattern occur at the head of the haystack? -/
def isSegAt : List Char → List Char → Bool
  | [], _ => true
  | _ :: _, [] => false
  | p :: ps, h :: hs => p == h && isSegAt ps hs

/-- Does the pattern occur anywhere in the haystack? -/
def hasSeg (pat : List Char) : List Char → Bool
  | [] => isSegAt pat []
  | h :: hs => isSegAt pat (h :: hs) || hasSeg pat hs

/-- SQL `column ILIKE '%query%'`: case-insensitive substring test. -/
def ilike (hay pat : String) : Bool :=
  hasSeg pat.toLower.toList hay.toLower.toList

/-- The `or_` filter of the search queries: the query matches the first
name, the last name, any associated email, or any associated phone. -/
def contactMatches (db : DB) (q : String) (c : Contact) : Bool :=
  ilike c.firstname q || ilike c.lastname q ||
  db.emails.any (fun e => e.contact_id == c.id && ilike e.email q) ||
  db.phones.any (fun p => p.contact_id == c.id && ilike p.phone q)

/-- `ContactRepository.search_all_contacts(query)`: the same filter with no
owner scope. -/
def search_all_contacts (db : DB) (q : String) : List Contact :=
  db.contacts.filter (contactMatches db q)

/-- `ContactRepository.get_all_birthdays(limit, offset)`: the birthday
window with no owner filter. -/
def get_all_birthdays (db : DB) (today limit offset : Nat) : List Contact :=
  ((db.contacts.filter (fun c =>
      decide (today ≤ c.birthday) &&
      decide (c.birthday ≤ today + 7))).drop offset).take limit

/-! ## Admin routes (src/src/admin/route_admin.py)

The three global contact endpoints call the repository methods on the class
itself: `ContactRepository.get_all_contacts(limit, offset, db)` binds
`self = limit`, `limit = offset`, `offset = db`, with no instance.  Python
values passed around are embedded as `PyVal`; `self.db` succeeds only on a
repository instance, and on any other receiver the `AttributeError` it
raises is not recovered (the `except` block immediately retries
`self.handle_exception`, which fails the same way). -/

/-- A Python runtime value as it appears at these call sites. -/
inductive PyVal where
  | vInt (n : Nat)
  | vStr (s : String)
  | vSession (db : DB)
  | vRepo (db : DB)
deriving Repr

/-- Python type name of a value, for the AttributeError message. -/
def pyTypeName : PyVal → String
  | .vInt _ => "int"
  | .vStr _ => "str"
  | .vSession _ => "AsyncSession"
  | .vRepo _ => "ContactRepository"

/-- `ContactRepository.get_all_contacts` invoked with explicit receiver. -/
def ContactRepository_get_all_contacts (self limit offset : PyVal) :
    Except PyError (List Contact) :=
  match self with
  | .vRepo db =>
      match limit, offset with
      | .vInt l, .vInt o => .ok (get_all_contacts db l o)
      | _, _ => .error (.typeError "limit and offset must be int")
  | other =>
      .error (.attributeError (pyTypeName other ++ " object has no attribute db"))

/-- `ContactRepository.get_all_birthdays` invoked with explicit receiver. -/
def ContactRepository_get_all_birthdays (today : Nat)
    (self limit offset : PyVal) : Except PyError (List Contact) :=
  match self with
  | .vRepo db =>
      match limit, offset with
      | .vInt l, .vInt o => .ok (get_all_birthdays db today l o)
      | _, _ => .error (.typeError "limit and offset must be int")
  | other =>
      .error (.attributeError (pyTypeName other ++ " object has no attribute db"))

/-- `ContactRepository.search_all_contacts` invoked with explicit
receiver. -/
def ContactRepository_search_all_contacts (self query : PyVal) :
    Except PyError (List Contact) :=
  match self with
  | .vRepo db =>
      match query with
      | .vStr q => .ok (search_all_contacts db q)
      | _ => .error (.typeError "query must be str")
  | other =>
      .error (.attributeError (pyTypeName other ++ " object has no attribute db"))

/-- GET /api/get_all_contacts: `ContactRepository.get_all_contacts(limit,
offset, db)` — the unbound call shifts every argument one position left. -/
def api_get_all_contacts (limit offset : Nat) (db : DB) :
    Except PyError (List Contact) :=
  ContactRepository_get_all_contacts (.vInt limit) (.vInt offset) (.vSession db)

/-- GET /api/get_all_birthdays: `ContactRepository.get_all_birthdays(limit,
offset, db)`, unbound. -/
def api_get_all_birthdays (today limit offset : Nat) (db : DB) :
    Except PyError (List Contact) :=
  ContactRepository_get_all_birthdays today
    (.vInt limit) (.vInt offset) (.vSession db)

/-- GET /api/search_all: `ContactRepository.search_all_contacts(query, db)`,
unbound. -/
def api_search_all (query : String) (db : DB) :
    Except PyError (List Contact) :=
  ContactRepository_search_all_contacts (.vStr query) (.vSession db)

/-! ## Concrete fixtures used by counterexamples and witnesses -/

/-- A contact owned by user 2. -/
def c1contact : Contact :=
  { id := 1, firstname := "Bob", lastname := "Lee", birthday := 10,
    description := none, owner_id := some 2 }

/-- Database holding only `c1contact`. -/
def c1db : DB :=
  { users := [], roles := [], contacts := [c1contact], emails := [],
    phones := [] }

/-- An existing user named alice. -/
def c3alice : User :=
  { id := 1, username := "alice", email := "alice@x.com",
    hashed_password := "bcrypt$pw123456", is_active := true,
    role_id := none }

/-- Database holding alice. -/
def c3db : DB :=
  { users := [c3alice], roles := [], contacts := [], emails := [],
    phones := [] }

/-- A registration request re-using alice's username. -/
def c3body : UserCreate :=
  { username := "alice", email := "alice2@x.com", password := "pw" }

/-- Database with one contact of user 2 that already holds the email value
the next create will supply. -/
def c4db : DB :=
  { users := [], roles := [],
    contacts := [{ id := 1, firstname := "Eve", lastname := "Ng",
                   birthday := 3, description := none, owner_id := some 2 }],
    emails := [{ id := 1, email := "dup@x.com", contact_id := 1 }],
    phones := [] }

/-- A create request whose email value collides with the stored one. -/
def c4body : ContactCreate :=
  { firstname := "Ann", lastname := "Lee", birthday := 9,
    description := none, emails := some ["dup@x.com"],
    phones := some ["123456"] }

/-- A contact of user 1 whose birthday is day 107. -/
def c5c : Contact :=
  { id := 1, firstname := "Ann", lastname := "Boe", birthday := 107,
    description := none, owner_id := some 1 }

/-- A contact of user 1 whose birthday is day 108. -/
def c5c8 : Contact :=
  { id := 2, firstname := "Cal", lastname := "Dee", birthday := 108,
    description := none, owner_id := some 1 }

/-- Database holding both birthday fixtures. -/
def c5db : DB :=
  { users := [], roles := [], contacts := [c5c, c5c8], emails := [],
    phones := [] }

/-- Database holding only the role table entry for "User". -/
def c6db : DB :=
  { users := [], roles := [{ id := 1, name := "User" }], contacts := [],
    emails := [], phones := [] }

/-- A fresh registration. -/
def c6body : UserCreate :=
  { username := "bob", email := "bob@x.com", password := "pw" }

/-- The record `create_user` persists for `c6body` on `c6db`. -/
def c6user : User :=
  { id := 1, username := "bob", email := "bob@x.com",
    hashed_password := "bcrypt$pw", is_active := false, role_id := none }

/-- Database with one owned contact that has one stored email row. -/
def c7db : DB :=
  { users := [], roles := [],
    contacts := [{ id := 1, firstname := "Joe", lastname := "Doe",
                   birthday := 5, description := none, owner_id := some 1 }],
    emails := [{ id := 1, email := "old@x.com", contact_id := 1 }],
    phones := [] }

/-- An update supplying a replacement email list. -/
def c7body : ContactUpdateSchema :=
  { id := 1, firstname := "Joe", lastname := "Doe", birthday := 5,
    description := none, emails := some ["new@x.com"], phones := none }

/-- The contact `update_contact` returns for `c7body` on `c7db` (the scalar
fields are re-assigned to their current values). -/
def c7updated : Contact :=
  { id := 1, firstname := "Joe", lastname := "Doe", birthday := 5,
    description := none, owner_id := some 1 }

/-- A user with no role assigned, as `create_user` produces. -/
def c8user : User :=
  { id := 1, username := "carol", email := "carol@x.com",
    hashed_password := "bcrypt$pw", is_active := false, role_id := none }

/-- Database holding `c8user` and the full role table. -/
def c8db : DB :=
  { users := [c8user],
    roles := [{ id := 1, name := "User" }, { id := 2, name := "Admin" },
              { id := 3, name := "Moderator" }],
    contacts := [], emails := [], phones := [] }

/-- Database with contacts present, to show the admin endpoints fail even
when there is data to return. -/
def c9db : DB :=
  { users := [], roles := [],
    contacts := [{ id := 1, firstname := "John", lastname := "Doe",
                   birthday := 5, description := none, owner_id := some 1 }],
    emails := [], phones := [] }

/-- Database whose only user does not carry the email the request names. -/
def c10db : DB :=
  { users := [c3alice], roles := [], contacts := [], emails := [],
    phones := [] }

end ContactsApi

namespace ContactsApi

/-- C2: a token made by `create_access_token` and decoded at once with the
access scope yields the original subject, and `decode_refresh_token` rejects
the same token with a 401. -/
theorem C2_access_roundtrip_refresh_rejects (s : String) (now : Nat) :
    get_current_user_token_check (create_access_token (some s) now) now
      = .ok s ∧
    decode_refresh_token (create_access_token (some s) now) now
      = .error (.http 401 "Invalid scope for token") := by
  have hlt : now < now + ACCESS_TOKEN_EXPIRE_MINUTES * 60 := by
    simp [ACCESS_TOKEN_EXPIRE_MINUTES]
  constructor
  · simp [get_current_user_token_check, create_access_token, jwt_decode, hlt]
  · simp [decode_refresh_token, create_access_token, jwt_decode, hlt]

/-- C2 witness: the round trip for subject alice at time zero. -/
theorem C2_access_roundtrip_refresh_rejects_witness :
    get_current_user_token_check
        (create_access_token (some "alice@x.com") 0) 0 = .ok "alice@x.com" ∧
    decode_refresh_token (create_access_token (some "alice@x.com") 0) 0
      = .error (.http 401 "Invalid scope for token") :=
  C2_access_roundtrip_refresh_rejects "alice@x.com" 0

/-- C1: the spec requires the owner-scoped list call to return a page of at
most `limit` contacts all owned by the requester.  The code cannot: the
handler dereferences `repo.get_contacts`, a name `ContactRepository` does
not bind, so every call raises `AttributeError`; and the one paginated list
method that does exist, `get_all_contacts`, applies no owner filter, as a
database holding a foreign contact shows. -/
theorem C1_list_route_attribute_error :
    contactRepositoryMethods.contains "get_contacts" = false ∧
    (∀ db limit offset uid, route_get_contacts db limit offset uid =
      .error (.attributeError
        "ContactRepository object has no attribute get_contacts")) ∧
    ∃ c, c ∈ get_all_contacts c1db 10 0 ∧ c.owner_id ≠ some 1 := by
  refine ⟨by decide, fun db limit offset uid => rfl, c1contact, by decide,
    by decide⟩

/-- C3: registering a username that already exists does not produce the 400
duplicate-user response; the handler's blanket `except Exception` catches
its own `HTTPException(400)` and replaces it with the 500. -/
theorem C3_duplicate_username_returns_500 (db : DB) (body : UserCreate)
    (u : User) (h : get_user db body.username = some u) :
    (register db body).2 = .error (.http 500 "Internal server error") ∧
    (register db body).2 ≠
      .error (.http 400 "Username already registered") := by
  have heq : (register db body).2 =
      .error (.http 500 "Internal server error") := by
    unfold register
    rw [h]
  refine ⟨heq, ?_⟩
  rw [heq]
  decide

/-- C3 witness: alice registers again on a database already holding
alice. -/
theorem C3_duplicate_username_returns_500_witness :
    (register c3db c3body).2 =
      .error (.http 500 "Internal server error") ∧
    (register c3db c3body).2 ≠
      .error (.http 400 "Username already registered") :=
  C3_duplicate_username_returns_500 c3db c3body c3alice (by decide)

/-- C8: a resolved user whose `role` relationship is None makes the role
guard raise `AttributeError` on `user.role.name` instead of the 403, so the
guard never authorizes such a user; and every user `create_user` persists
has `role_id` null. -/
theorem C8_role_guard_attribute_error (db : DB) (allowed : List String)
    (u : User) (h : userRole db u = none) :
    role_checker db allowed u =
      .error (.attributeError "NoneType object has no attribute name") ∧
    (∀ v, role_checker db allowed u ≠ .ok v) ∧
    (∀ db2 body u2, (create_user db2 body).2 = .ok u2 →
      u2.role_id = none) := by
  refine ⟨?_, ?_, ?_⟩
  · unfold role_checker
    rw [h]
  · intro v hv
    unfold role_checker at hv
    rw [h] at hv
    cases hv
  · intro db2 body u2 h2
    unfold create_user at h2
    by_cases hdup : db2.users.any (fun x =>
        x.username == body.username || x.email == body.email) = true
    · simp [hdup] at h2
    · simp [hdup] at h2
      subst h2
      rfl

/-- C8 witness: a freshly created role-less user hits the attribute error
under the contact routes' allow-list. -/
theorem C8_role_guard_attribute_error_witness :
    role_checker c8db ["User", "Admin", "Moderator"] c8user =
      .error (.attributeError "NoneType object has no attribute name") :=
  (C8_role_guard_attribute_error c8db ["User", "Admin", "Moderator"] c8user
    (by decide)).1

/-- C9: the three admin-only global contact endpoints invoke the repository
methods unbound, shifting every argument one position; `self` arrives as an
int or str, `self.db` raises `AttributeError`, and no input ever yields a
contact list. -/
theorem C9_admin_global_endpoints_always_error (limit offset today : Nat)
    (db : DB) (query : String) :
    api_get_all_contacts limit offset db =
      .error (.attributeError "int object has no attribute db") ∧
    api_get_all_birthdays today limit offset db =
      .error (.attributeError "int object has no attribute db") ∧
    api_search_all query db =
      .error (.attributeError "str object has no attribute db") :=
  ⟨rfl, rfl, rfl⟩

/-- C9 witness: concrete admin calls over a populated database. -/
theorem C9_admin_global_endpoints_always_error_witness :
    api_get_all_contacts 10 0 c9db =
      .error (.attributeError "int object has no attribute db") ∧
    api_get_all_birthdays 3 10 0 c9db =
      .error (.attributeError "int object has no attribute db") ∧
    api_search_all "john" c9db =
      .error (.attributeError "str object has no attribute db") :=
  C9_admin_global_endpoints_always_error 10 0 3 c9db "john"

/-- C10: POST /auth/request_email evaluates `user.is_active` before any
existence check, so an email matching no user raises an unhandled
`AttributeError` instead of answering either documented message. -/
theorem C10_request_email_missing_user (db : DB) (email : String)
    (h : get_user_by_email db email = none) :
    request_email db email =
      .error (.attributeError "NoneType object has no attribute is_active") ∧
    ∀ msg, request_email db email ≠ .ok msg := by
  unfold request_email
  rw [h]
  exact ⟨rfl, fun msg hm => by cases hm⟩

/-- C10 witness: a request for an address no stored user carries. -/
theorem C10_request_email_missing_user_witness :
    request_email c10db "ghost@x.com" =
      .error (.attributeError "NoneType object has no attribute is_active") :=
  (C10_request_email_missing_user c10db "ghost@x.com" (by decide)).1

/-! ## Helper lemmas on the repository embedding -/

/-- The second transaction either commits every pending row or rolls all of
them back. -/
theorem create_contact_step2_cases (db1 : DB) (c : Contact)
    (body : ContactCreate) :
    create_contact_step2 db1 c body =
      ({ db1 with
          emails := db1.emails ++
            buildEmails (nextEmailId db1) c.id (optVals body.emails),
          phones := db1.phones ++
            buildPhones (nextPhoneId db1) c.id (optVals body.phones) },
        .ok c) ∨
    create_contact_step2 db1 c body =
      (db1, .error (.http 500 "Internal Server Error")) := by
  unfold create_contact_step2
  dsimp only
  split
  · exact Or.inl rfl
  · exact Or.inr rfl

/-- When the select hits, `update_contact` runs `update_found`. -/
theorem update_contact_eq_of_find (db : DB) (cid owner : Nat)
    (body : ContactUpdateSchema) (c0 : Contact)
    (hfind : db.contacts.find? (fun x =>
      x.id == cid && x.owner_id == some owner) = some c0) :
    update_contact db cid body owner = update_found db cid body c0 := by
  unfold update_contact
  rw [hfind]

/-- The freshly inserted email rows carry exactly the supplied values. -/
theorem buildEmails_map_email (cid : Nat) (vs : List String) : ∀ s,
    (buildEmails s cid vs).map (fun e => e.email) = vs := by
  induction vs with
  | nil => intro s; rfl
  | cons v t ih => intro s; simp [buildEmails, ih]

/-- The freshly inserted email rows all belong to the given contact. -/
theorem buildEmails_filter_keep (cid : Nat) (vs : List String) : ∀ s,
    (buildEmails s cid vs).filter (fun e => e.contact_id == cid) =
      buildEmails s cid vs := by
  induction vs with
  | nil => intro s; rfl
  | cons v t ih => intro s; simp [buildEmails, ih]

/-- No freshly inserted email row belongs to another contact. -/
theorem buildEmails_filter_drop (cid : Nat) (vs : List String) : ∀ s,
    (buildEmails s cid vs).filter (fun e => !(e.contact_id == cid)) = [] := by
  induction vs with
  | nil => intro s; rfl
  | cons v t ih => intro s; simp [buildEmails, ih]

/-- Rows of other contacts, then restricted to the contact: nothing. -/
theorem filter_drop_then_keep (l : List Email) (cid : Nat) :
    (l.filter (fun e => !(e.contact_id == cid))).filter
      (fun e => e.contact_id == cid) = [] := by
  simp [List.filter_filter]

/-- Restricting to other contacts twice changes nothing. -/
theorem filter_drop_idem (l : List Email) (cid : Nat) :
    (l.filter (fun e => !(e.contact_id == cid))).filter
      (fun e => !(e.contact_id == cid)) =
      l.filter (fun e => !(e.contact_id == cid)) := by
  simp [List.filter_filter]

/-! ## Claims C4 to C7 -/

/-- C4 counterexample: an email value colliding with a stored one makes the
second commit of `create_contact` fail after the first already persisted
the contact row, so the call errors with the 500 while the contact row is
in the table and none of its supplied email rows are — the claimed
all-or-nothing transaction does not hold. -/
theorem C4_counterexample_partial_write :
    (create_contact c4db c4body 1).2 =
      .error (.http 500 "Internal Server Error") ∧
    newContact c4db c4body 1 ∈ (create_contact c4db c4body 1).1.contacts ∧
    (create_contact c4db c4body 1).1.emails.filter
      (fun e => e.contact_id == (newContact c4db c4body 1).id) = [] := by
  decide

/-- C4 amended: `create_contact` commits the contact row in a first
transaction before the email/phone rows are inserted and committed in a
second, so the contact row is persisted regardless of the outcome, and on a
second-commit failure only the email/phone rows are rolled back. -/
theorem C4_contact_row_commits_first (db : DB) (body : ContactCreate)
    (owner_id : Nat) :
    newContact db body owner_id ∈
      (create_contact db body owner_id).1.contacts ∧
    ((create_contact db body owner_id).2 =
        .error (.http 500 "Internal Server Error") →
      (create_contact db body owner_id).1.emails = db.emails ∧
      (create_contact db body owner_id).1.phones = db.phones) := by
  have hc : create_contact db body owner_id =
      create_contact_step2
        { db with contacts := db.contacts ++ [newContact db body owner_id] }
        (newContact db body owner_id) body := rfl
  rcases create_contact_step2_cases
      { db with contacts := db.contacts ++ [newContact db body owner_id] }
      (newContact db body owner_id) body with h | h
  · rw [hc, h]
    refine ⟨by simp, fun hcon => ?_⟩
    simp at hcon
  · rw [hc, h]
    exact ⟨by simp, fun _ => ⟨rfl, rfl⟩⟩

/-- C4 witness: at the colliding input, the amended theorem yields the
persisted contact row and the untouched emails table. -/
theorem C4_contact_row_commits_first_witness :
    newContact c4db c4body 1 ∈ (create_contact c4db c4body 1).1.contacts ∧
    (create_contact c4db c4body 1).1.emails = c4db.emails :=
  ⟨(C4_contact_row_commits_first c4db c4body 1).1,
   ((C4_contact_row_commits_first c4db c4body 1).2 (by decide)).1⟩

/-- C5: the birthday query's SQL BETWEEN is inclusive on both ends, so an
owned contact whose stored birthday date is exactly today + 7 is selected
(and returned under a sufficient page size), while one stored at today + 8
is never returned for any limit and offset. -/
theorem C5_birthday_window (db : DB) (today owner : Nat) (c c8 : Contact)
    (hmem : c ∈ db.contacts) (hown : c.owner_id = some owner)
    (hb : c.birthday = today + 7) (hb8 : c8.birthday = today + 8) :
    c ∈ get_birthdays db today db.contacts.length 0 owner ∧
    ∀ limit offset, c8 ∉ get_birthdays db today limit offset owner := by
  constructor
  · unfold get_birthdays
    rw [List.drop_zero, List.take_of_length_le (List.length_filter_le _ _)]
    refine List.mem_filter.mpr ⟨hmem, ?_⟩
    simp [hown, hb]
  · intro limit offset hmem8
    unfold get_birthdays at hmem8
    have h2 := List.mem_of_mem_drop (List.mem_of_mem_take hmem8)
    have h3 := (List.mem_filter.mp h2).2
    rw [hb8] at h3
    simp at h3

/-- C5 witness: day-107 and day-108 birthdays against today = 100. -/
theorem C5_birthday_window_witness :
    c5c ∈ get_birthdays c5db 100 c5db.contacts.length 0 1 ∧
    c5c8 ∉ get_birthdays c5db 100 5 0 1 :=
  ⟨(C5_birthday_window c5db 100 1 c5c c5c8 (by decide) (by decide) (by decide)
      (by decide)).1,
   (C5_birthday_window c5db 100 1 c5c c5c8 (by decide) (by decide) (by decide)
      (by decide)).2 5 0⟩

/-- C6 counterexample: the user `create_user` persists is inactive but has
`role_id` null, so it does not carry the default "User" role even though
that role exists in the roles table. -/
theorem C6_counterexample_no_role :
    (create_user c6db c6body).2 = .ok c6user ∧
    c6user.is_active = false ∧
    (userRole (create_user c6db c6body).1 c6user).map (fun r => r.name) ≠
      some "User" := by
  decide

/-- C6 amended: every successful `create_user` call persists the user
inactive and with no role assigned; no default role is set at creation. -/
theorem C6_create_user_inactive_no_role (db : DB) (body : UserCreate)
    (u : User) (h : (create_user db body).2 = .ok u) :
    u.is_active = false ∧ u.role_id = none ∧
    u ∈ (create_user db body).1.users := by
  by_cases hdup : db.users.any (fun x =>
      x.username == body.username || x.email == body.email) = true
  · have hred : (create_user db body).2 =
        .error (.http 500 "Internal Server Error") := by
      unfold create_user
      rw [if_pos hdup]
    rw [hred] at h
    cases h
  · have hred : create_user db body =
        ({ db with users := db.users ++ [createdUser db body] },
          .ok (createdUser db body)) := by
      unfold create_user
      rw [if_neg hdup]
    rw [hred] at h ⊢
    simp at h
    subst h
    exact ⟨rfl, rfl, by simp⟩

/-- C6 witness: the fresh registration on a database holding the role
table. -/
theorem C6_create_user_inactive_no_role_witness :
    c6user.is_active = false ∧ c6user.role_id = none ∧
    c6user ∈ (create_user c6db c6body).1.users :=
  C6_create_user_inactive_no_role c6db c6body c6user (by decide)

/-- C7: when `update_contact` succeeds on an existing owned contact, a
supplied emails list (empty included) fully replaces the contact's email
rows — afterwards the rows of that contact carry exactly the supplied
values and rows of other contacts are untouched — while `emails = None`
leaves the emails table unchanged. -/
theorem C7_update_emails_full_replace (db : DB) (cid owner : Nat)
    (body : ContactUpdateSchema) (c : Contact)
    (hok : (update_contact db cid body owner).2 = .ok c) :
    (∀ l, body.emails = some l →
      ((update_contact db cid body owner).1.emails.filter
          (fun e => e.contact_id == cid)).map (fun e => e.email) = l ∧
      (update_contact db cid body owner).1.emails.filter
          (fun e => !(e.contact_id == cid)) =
        db.emails.filter (fun e => !(e.contact_id == cid))) ∧
    (body.emails = none →
      (update_contact db cid body owner).1.emails = db.emails) := by
  cases hfind : db.contacts.find? (fun x =>
      x.id == cid && x.owner_id == some owner) with
  | none =>
      have hne : (update_contact db cid body owner).2 =
          .error (.http 500 "Internal Server Error") := by
        unfold update_contact
        rw [hfind]
      rw [hne] at hok
      cases hok
  | some c0 =>
      have heq := update_contact_eq_of_find db cid owner body c0 hfind
      rw [heq] at hok ⊢
      constructor
      · intro l hl
        simp only [update_found, hl] at hok ⊢
        by_cases hu : emailsUnique
            (db.emails.filter (fun e => !(e.contact_id == cid)) ++
              buildEmails (nextEmailId db) cid l) = true
        · simp only [hu, if_true]
          constructor
          · simp [List.filter_append, filter_drop_then_keep,
              buildEmails_filter_keep, buildEmails_map_email]
          · simp [List.filter_append, filter_drop_idem,
              buildEmails_filter_drop]
        · simp [hu] at hok
      · intro hl
        simp only [update_found, hl]
        split
        · rfl
        · rfl

/-- C7 witness: replacing the single stored email of contact 1 with a new
value. -/
theorem C7_update_emails_full_replace_witness :
    ((update_contact c7db 1 c7body 1).1.emails.filter
        (fun e => e.contact_id == 1)).map (fun e => e.email) =
      ["new@x.com"] ∧
    (update_contact c7db 1 c7body 1).1.emails.filter
        (fun e => !(e.contact_id == 1)) =
      c7db.emails.filter (fun e => !(e.contact_id == 1)) :=
  (C7_update_emails_full_replace c7db 1 1 c7body c7updated (by decide)).1
    ["new@x.com"] rfl

end ContactsApi
